import Mathlib

/-!
Verification of the cube state model and move-transformation engine
(`cube_engine.py`): a 6×3×3 facelet grid, twelve elementary face turns,
the composite middle-slice moves M and M', the notation dispatcher,
the Kociemba serializer and the solution tokenizer.

Faces are numbered as in the source: U:0, R:1, F:2, D:3, L:4, B:5.
A cube state is a function from face index, row and column to the
sticker's integer color value.
-/

/-- A single 3×3 face: row → column → color value. -/
def Face : Type := Fin 3 → Fin 3 → ℕ

/-- The full cube state: face index → row → column → color value. -/
def Cube : Type := Fin 6 → Fin 3 → Fin 3 → ℕ

instance : DecidableEq Face := by unfold Face; infer_instance

instance : DecidableEq Cube := by unfold Cube; infer_instance

/-- `np.rot90(m, -1)`: rotate a 3×3 face 90° clockwise.
`rot90(m, -1)[i, j] = m[2 - j, i]`. -/
def rotateCW (f : Face) : Face := fun i j => f j.rev i

/-- `np.rot90(m, 1)`: rotate a 3×3 face 90° counter-clockwise.
`rot90(m, 1)[i, j] = m[j, 2 - i]`. -/
def rotateCCW (f : Face) : Face := fun i j => f j i.rev

/-- `_get_pristine_state`: the solved cube, every sticker on face `f`
holds the color value `f`. -/
def _get_pristine_state : Cube := fun f _ _ => f.val

/-- `reset_to_solved`: replaces the whole state with the pristine one. -/
def reset_to_solved (_ : Cube) : Cube := _get_pristine_state

/-- `FACE_MAP`: integer face identifier → role letter; absent keys fail
(a Python `KeyError`), modelled as `none`. -/
def FACE_MAP : ℕ → Option Char
  | 0 => some 'U'
  | 1 => some 'R'
  | 2 => some 'F'
  | 3 => some 'D'
  | 4 => some 'L'
  | 5 => some 'B'
  | _ => none

/-- `SOLVED_KOCIEMBA_STRING = "".join([f * 9 for f in "URFDLB"])`. -/
def SOLVED_KOCIEMBA_STRING : String :=
  String.join (("URFDLB".toList).map (fun ch => String.mk (List.replicate 9 ch)))

/-- Row-major flattening of the cube in face order 0..5 (`matrix.flatten()`). -/
def flattenCube (c : Cube) : List ℕ :=
  (List.finRange 6).flatMap (fun f =>
    (List.finRange 3).flatMap (fun i =>
      (List.finRange 3).map (fun j => c f i j)))

/-- `to_kociemba_string`: map every flattened color value through
`FACE_MAP` and join; `none` models the `KeyError` on an out-of-range value. -/
def to_kociemba_string (c : Cube) : Option String :=
  ((flattenCube c).mapM FACE_MAP).map (fun l => String.mk l)

/-! ### Elementary face turns

Each `_turn_*` transliterates the corresponding method: first the 90°
rotation of the turning face's own matrix, then the simultaneous 4-way
border-strip exchange (the source saves `temp` copies so that every
strip read is of the pre-move value).  `Fin.rev` is `np.flip` on an
index of a length-3 strip. -/

/-- `_turn_F_cw`. -/
def _turn_F_cw (m : Cube) : Cube := fun f i j =>
  if f = 2 then rotateCW (m 2) i j
  else if f = 0 then (if i = 2 then m 4 j.rev 2 else m 0 i j)
  else if f = 4 then (if j = 2 then m 3 0 i else m 4 i j)
  else if f = 3 then (if i = 0 then m 1 j.rev 0 else m 3 i j)
  else if f = 1 then (if j = 0 then m 0 2 i else m 1 i j)
  else m f i j

/-- `_turn_F_ccw`. -/
def _turn_F_ccw (m : Cube) : Cube := fun f i j =>
  if f = 2 then rotateCCW (m 2) i j
  else if f = 0 then (if i = 2 then m 1 j 0 else m 0 i j)
  else if f = 1 then (if j = 0 then m 3 0 i.rev else m 1 i j)
  else if f = 3 then (if i = 0 then m 4 j 2 else m 3 i j)
  else if f = 4 then (if j = 2 then m 0 2 i.rev else m 4 i j)
  else m f i j

/-- `_turn_R_cw`. -/
def _turn_R_cw (m : Cube) : Cube := fun f i j =>
  if f = 1 then rotateCW (m 1) i j
  else if f = 0 then (if j = 2 then m 2 i 2 else m 0 i j)
  else if f = 2 then (if j = 2 then m 3 i 2 else m 2 i j)
  else if f = 3 then (if j = 2 then m 5 i.rev 0 else m 3 i j)
  else if f = 5 then (if j = 0 then m 0 i.rev 2 else m 5 i j)
  else m f i j

/-- `_turn_R_ccw`. -/
def _turn_R_ccw (m : Cube) : Cube := fun f i j =>
  if f = 1 then rotateCCW (m 1) i j
  else if f = 0 then (if j = 2 then m 5 i 0 else m 0 i j)
  else if f = 5 then (if j = 0 then m 3 i.rev 2 else m 5 i j)
  else if f = 3 then (if j = 2 then m 2 i 2 else m 3 i j)
  else if f = 2 then (if j = 2 then m 0 i 2 else m 2 i j)
  else m f i j

/-- `_turn_U_cw`. -/
def _turn_U_cw (m : Cube) : Cube := fun f i j =>
  if f = 0 then rotateCW (m 0) i j
  else if f = 4 then (if i = 0 then m 2 0 j else m 4 i j)
  else if f = 2 then (if i = 0 then m 1 0 j else m 2 i j)
  else if f = 1 then (if i = 0 then m 5 0 j else m 1 i j)
  else if f = 5 then (if i = 0 then m 4 0 j else m 5 i j)
  else m f i j

/-- `_turn_U_ccw`. -/
def _turn_U_ccw (m : Cube) : Cube := fun f i j =>
  if f = 0 then rotateCCW (m 0) i j
  else if f = 4 then (if i = 0 then m 5 0 j else m 4 i j)
  else if f = 5 then (if i = 0 then m 1 0 j else m 5 i j)
  else if f = 1 then (if i = 0 then m 2 0 j else m 1 i j)
  else if f = 2 then (if i = 0 then m 4 0 j else m 2 i j)
  else m f i j

/-- `_turn_L_cw`. -/
def _turn_L_cw (m : Cube) : Cube := fun f i j =>
  if f = 4 then rotateCW (m 4) i j
  else if f = 0 then (if j = 0 then m 5 i.rev 2 else m 0 i j)
  else if f = 5 then (if j = 2 then m 3 i.rev 0 else m 5 i j)
  else if f = 3 then (if j = 0 then m 2 i 0 else m 3 i j)
  else if f = 2 then (if j = 0 then m 0 i 0 else m 2 i j)
  else m f i j

/-- `_turn_L_ccw`. -/
def _turn_L_ccw (m : Cube) : Cube := fun f i j =>
  if f = 4 then rotateCCW (m 4) i j
  else if f = 0 then (if j = 0 then m 2 i 0 else m 0 i j)
  else if f = 2 then (if j = 0 then m 3 i 0 else m 2 i j)
  else if f = 3 then (if j = 0 then m 5 i.rev 2 else m 3 i j)
  else if f = 5 then (if j = 2 then m 0 i.rev 0 else m 5 i j)
  else m f i j

/-- `_turn_D_cw`. -/
def _turn_D_cw (m : Cube) : Cube := fun f i j =>
  if f = 3 then rotateCW (m 3) i j
  else if f = 4 then (if i = 2 then m 5 2 j else m 4 i j)
  else if f = 5 then (if i = 2 then m 1 2 j else m 5 i j)
  else if f = 1 then (if i = 2 then m 2 2 j else m 1 i j)
  else if f = 2 then (if i = 2 then m 4 2 j else m 2 i j)
  else m f i j

/-- `_turn_D_ccw`. -/
def _turn_D_ccw (m : Cube) : Cube := fun f i j =>
  if f = 3 then rotateCCW (m 3) i j
  else if f = 4 then (if i = 2 then m 2 2 j else m 4 i j)
  else if f = 2 then (if i = 2 then m 1 2 j else m 2 i j)
  else if f = 1 then (if i = 2 then m 5 2 j else m 1 i j)
  else if f = 5 then (if i = 2 then m 4 2 j else m 5 i j)
  else m f i j

/-- `_turn_B_cw`. -/
def _turn_B_cw (m : Cube) : Cube := fun f i j =>
  if f = 5 then rotateCW (m 5) i j
  else if f = 0 then (if i = 0 then m 1 j 2 else m 0 i j)
  else if f = 1 then (if j = 2 then m 3 2 i.rev else m 1 i j)
  else if f = 3 then (if i = 2 then m 4 j 0 else m 3 i j)
  else if f = 4 then (if j = 0 then m 0 0 i.rev else m 4 i j)
  else m f i j

/-- `_turn_B_ccw`. -/
def _turn_B_ccw (m : Cube) : Cube := fun f i j =>
  if f = 5 then rotateCCW (m 5) i j
  else if f = 0 then (if i = 0 then m 4 j.rev 0 else m 0 i j)
  else if f = 4 then (if j = 0 then m 3 2 i else m 4 i j)
  else if f = 3 then (if i = 2 then m 1 j.rev 2 else m 3 i j)
  else if f = 1 then (if j = 2 then m 0 0 i else m 1 i j)
  else m f i j

/-- `_orient_x_pos`: whole-grid reorientation about the L/R axis; faces
0,2,3,5 are cyclically reassigned (`np.flipud` reverses rows), then face 1
is rotated clockwise and face 4 counter-clockwise in place. -/
def _orient_x_pos (m : Cube) : Cube := fun f i j =>
  if f = 0 then m 2 i j
  else if f = 2 then m 3 i j
  else if f = 3 then m 5 i.rev j
  else if f = 5 then m 0 i.rev j
  else if f = 1 then rotateCW (m 1) i j
  else rotateCCW (m 4) i j

/-- `_orient_x_neg`: the opposite reorientation. -/
def _orient_x_neg (m : Cube) : Cube := fun f i j =>
  if f = 0 then m 5 i.rev j
  else if f = 5 then m 3 i.rev j
  else if f = 3 then m 2 i j
  else if f = 2 then m 0 i j
  else if f = 1 then rotateCCW (m 1) i j
  else rotateCW (m 4) i j

/-- The `"M"` entry of the dispatcher:
`[_turn_R_ccw(), _turn_L_cw(), _orient_x_pos()]` in order. -/
def move_M (m : Cube) : Cube := _orient_x_pos (_turn_L_cw (_turn_R_ccw m))

/-- The `"M'"` entry of the dispatcher:
`[_turn_R_cw(), _turn_L_ccw(), _orient_x_neg()]` in order. -/
def move_M_prime (m : Cube) : Cube := _orient_x_neg (_turn_L_ccw (_turn_R_cw m))

/-- The prime character `'`, used to build primed move tokens. -/
def primeChar : Char := Char.ofNat 39

/-- Append the prime mark to a base token (`"F"` ↦ `"F'"`). -/
def primed (s : String) : String := s.push primeChar

/-- `_initialize_move_dispatcher`: the fixed table from the fourteen move
tokens to their transformations; unknown tokens are absent (`none`). -/
def _move_dispatcher (mv : String) : Option (Cube → Cube) :=
  if mv = "F" then some _turn_F_cw
  else if mv = primed "F" then some _turn_F_ccw
  else if mv = "R" then some _turn_R_cw
  else if mv = primed "R" then some _turn_R_ccw
  else if mv = "U" then some _turn_U_cw
  else if mv = primed "U" then some _turn_U_ccw
  else if mv = "L" then some _turn_L_cw
  else if mv = primed "L" then some _turn_L_ccw
  else if mv = "D" then some _turn_D_cw
  else if mv = primed "D" then some _turn_D_ccw
  else if mv = "B" then some _turn_B_cw
  else if mv = primed "B" then some _turn_B_ccw
  else if mv = "M" then some move_M
  else if mv = primed "M" then some move_M_prime
  else none

/-- `execute_manipulation`: look the token up; raise
`ValueError(f"Unknown move notation: {mv}")` when absent, otherwise apply
the transformation once and return the mutated state. -/
def execute_manipulation (mv : String) (c : Cube) : Except String Cube :=
  match _move_dispatcher mv with
  | some t => Except.ok (t c)
  | none => Except.error ("Unknown move notation: " ++ mv)

/-- The engine state after a `/move` request: on a dispatch error the
exception propagates before any mutation, so the grid is unchanged. -/
def stateAfterManipulation (mv : String) (c : Cube) : Cube :=
  match _move_dispatcher mv with
  | some t => t c
  | none => c

/-- The fourteen supported move tokens. -/
def supportedTokens : List String :=
  ["F", primed "F", "R", primed "R", "U", primed "U", "L", primed "L",
   "D", primed "D", "B", primed "B", "M", primed "M"]

/-- An entry of the tokenized solver output: either a single move token or
the two-element list `[base, base]` produced for a double turn. -/
inductive MoveEntry : Type where
  | single : String → MoveEntry
  | double : String → String → MoveEntry
deriving DecidableEq

/-- One iteration of the tokenizer's loop: a token containing `"2"` (Python
substring test `"2" in move`) becomes the pair `[move[0], move[0]]` of its
first character, all others pass through unchanged. -/
def entryOfToken (mv : String) : MoveEntry :=
  if mv.data.contains '2' then
    MoveEntry.double (String.mk (mv.data.take 1)) (String.mk (mv.data.take 1))
  else MoveEntry.single mv

/-- Python `str.split()` on a character list: split on runs of whitespace,
producing no empty pieces; `acc` holds the current token reversed. -/
def splitWhitespaceAux (l : List Char) (acc : List Char) : List (List Char) :=
  match l with
  | [] => if acc.isEmpty then [] else [acc.reverse]
  | c :: rest =>
    if c.isWhitespace then
      if acc.isEmpty then splitWhitespaceAux rest []
      else acc.reverse :: splitWhitespaceAux rest []
    else splitWhitespaceAux rest (c :: acc)

/-- `_tokenize_solution_string`: split the solver output on whitespace and
expand each token. -/
def _tokenize_solution_string (s : String) : List MoveEntry :=
  (splitWhitespaceAux s.data []).map (fun tok => entryOfToken (String.mk tok))

/-- The twelve elementary face-turn tokens (M and M' excluded). -/
def elementaryTokens : List String :=
  ["F", primed "F", "R", primed "R", "U", primed "U", "L", primed "L",
   "D", primed "D", "B", primed "B"]

/-- The engine state after running a list of move tokens in order. -/
def applyMoves (l : List String) (c : Cube) : Cube :=
  l.foldl (fun c t => stateAfterManipulation t c) c

/-- `discover_solution_path`: serialize the grid; if it is the solved
sentinel, answer an empty solution with no moves without consulting the
solver; otherwise pass the string to the solving oracle (an argument here)
and tokenize its answer.  `none` models the serializer's `KeyError`;
`Except.error` models a solver fault. -/
def discover_solution_path (solver : String → Except String String) (c : Cube) :
    Option (Except String (String × List MoveEntry)) :=
  (to_kociemba_string c).map (fun s =>
    if s = SOLVED_KOCIEMBA_STRING then Except.ok ("", [])
    else (solver s).map (fun path => (path, _tokenize_solution_string path)))

/-! ### Generic-state machinery

Every transformation of the engine only copies sticker values between
positions, so it commutes with any recoloring of the values.  Applying a
transformation to the injectively labelled cube therefore determines its
action on every cube. -/

/-- Post-compose every sticker value with a recoloring function. -/
def recolor (c : ℕ → ℕ) (m : Cube) : Cube := fun f i j => c (m f i j)

/-- A transformation that commutes with recoloring (it only moves sticker
values around, never inspects them). -/
def Preserving (T : Cube → Cube) : Prop :=
  ∀ (c : ℕ → ℕ) (m : Cube), T (recolor c m) = recolor c (T m)

/-- The cube whose sticker at face `f`, row `i`, column `j` holds the
distinct label `9 f + 3 i + j`. -/
def labelCube : Cube := fun f i j => f.val * 9 + i.val * 3 + j.val

/-- Face index encoded in a label. -/
def faceIdx (n : ℕ) : Fin 6 := ⟨n / 9 % 6, Nat.mod_lt _ (by norm_num)⟩

/-- Row index encoded in a label. -/
def rowIdx (n : ℕ) : Fin 3 := ⟨n / 3 % 3, Nat.mod_lt _ (by norm_num)⟩

/-- Column index encoded in a label. -/
def colIdx (n : ℕ) : Fin 3 := ⟨n % 3, Nat.mod_lt _ (by norm_num)⟩

/-- Read an arbitrary cube at the position a label denotes. -/
def codeOf (m : Cube) : ℕ → ℕ := fun n => m (faceIdx n) (rowIdx n) (colIdx n)

lemma decode_label : ∀ (f : Fin 6) (i j : Fin 3),
    faceIdx (labelCube f i j) = f ∧ rowIdx (labelCube f i j) = i ∧
      colIdx (labelCube f i j) = j := by decide

lemma recolor_codeOf_label (m : Cube) : recolor (codeOf m) labelCube = m := by
  funext f i j
  show m (faceIdx (labelCube f i j)) (rowIdx (labelCube f i j))
      (colIdx (labelCube f i j)) = m f i j
  rw [(decode_label f i j).1, (decode_label f i j).2.1, (decode_label f i j).2.2]

lemma preserving_eval {T : Cube → Cube} (hT : Preserving T) (m : Cube)
    (f : Fin 6) (i j : Fin 3) : T m f i j = codeOf m (T labelCube f i j) := by
  conv_lhs => rw [← recolor_codeOf_label m, hT (codeOf m) labelCube]
  rfl

lemma preserving_fixed {T : Cube → Cube} (hT : Preserving T) {f : Fin 6}
    {i j : Fin 3} (h : T labelCube f i j = labelCube f i j) (m : Cube) :
    T m f i j = m f i j := by
  rw [preserving_eval hT m f i j, h]
  show m (faceIdx (labelCube f i j)) (rowIdx (labelCube f i j))
      (colIdx (labelCube f i j)) = m f i j
  rw [(decode_label f i j).1, (decode_label f i j).2.1, (decode_label f i j).2.2]

lemma preserving_turn_F_cw : Preserving _turn_F_cw := by
  intro c m; funext f i j
  simp only [_turn_F_cw, recolor, rotateCW]
  split_ifs <;> rfl

lemma preserving_turn_F_ccw : Preserving _turn_F_ccw := by
  intro c m; funext f i j
  simp only [_turn_F_ccw, recolor, rotateCCW]
  split_ifs <;> rfl

lemma preserving_turn_R_cw : Preserving _turn_R_cw := by
  intro c m; funext f i j
  simp only [_turn_R_cw, recolor, rotateCW]
  split_ifs <;> rfl

lemma preserving_turn_R_ccw : Preserving _turn_R_ccw := by
  intro c m; funext f i j
  simp only [_turn_R_ccw, recolor, rotateCCW]
  split_ifs <;> rfl

lemma preserving_turn_U_cw : Preserving _turn_U_cw := by
  intro c m; funext f i j
  simp only [_turn_U_cw, recolor, rotateCW]
  split_ifs <;> rfl

lemma preserving_turn_U_ccw : Preserving _turn_U_ccw := by
  intro c m; funext f i j
  simp only [_turn_U_ccw, recolor, rotateCCW]
  split_ifs <;> rfl

lemma preserving_turn_L_cw : Preserving _turn_L_cw := by
  intro c m; funext f i j
  simp only [_turn_L_cw, recolor, rotateCW]
  split_ifs <;> rfl

lemma preserving_turn_L_ccw : Preserving _turn_L_ccw := by
  intro c m; funext f i j
  simp only [_turn_L_ccw, recolor, rotateCCW]
  split_ifs <;> rfl

lemma preserving_turn_D_cw : Preserving _turn_D_cw := by
  intro c m; funext f i j
  simp only [_turn_D_cw, recolor, rotateCW]
  split_ifs <;> rfl

lemma preserving_turn_D_ccw : Preserving _turn_D_ccw := by
  intro c m; funext f i j
  simp only [_turn_D_ccw, recolor, rotateCCW]
  split_ifs <;> rfl

lemma preserving_turn_B_cw : Preserving _turn_B_cw := by
  intro c m; funext f i j
  simp only [_turn_B_cw, recolor, rotateCW]
  split_ifs <;> rfl

lemma preserving_turn_B_ccw : Preserving _turn_B_ccw := by
  intro c m; funext f i j
  simp only [_turn_B_ccw, recolor, rotateCCW]
  split_ifs <;> rfl

lemma preserving_orient_x_pos : Preserving _orient_x_pos := by
  intro c m; funext f i j
  simp only [_orient_x_pos, recolor, rotateCW, rotateCCW]
  split_ifs <;> rfl

lemma preserving_orient_x_neg : Preserving _orient_x_neg := by
  intro c m; funext f i j
  simp only [_orient_x_neg, recolor, rotateCW, rotateCCW]
  split_ifs <;> rfl

lemma preserving_move_M : Preserving move_M := by
  intro c m
  unfold move_M
  rw [preserving_turn_R_ccw, preserving_turn_L_cw, preserving_orient_x_pos]

lemma preserving_move_M_prime : Preserving move_M_prime := by
  intro c m
  unfold move_M_prime
  rw [preserving_turn_R_cw, preserving_turn_L_ccw, preserving_orient_x_neg]

/-! ### Sticker positions, counting and induced permutations -/

/-- A sticker position: face, row, column. -/
abbrev Pos : Type := Fin 6 × Fin 3 × Fin 3

/-- Read a cube at a position. -/
def cubeAt (m : Cube) (p : Pos) : ℕ := m p.1 p.2.1 p.2.2

/-- Number of sticker positions currently holding the color value `v`. -/
def countColor (m : Cube) (v : ℕ) : ℕ :=
  (Finset.univ.filter (fun p : Pos => cubeAt m p = v)).card

/-- The position-reading map a value-preserving transformation induces,
read off from its action on the labelled cube: the sticker a transformed
cube shows at `p` is the original sticker at `posMap T p`. -/
def posMap (T : Cube → Cube) (p : Pos) : Pos :=
  (faceIdx (cubeAt (T labelCube) p), rowIdx (cubeAt (T labelCube) p),
    colIdx (cubeAt (T labelCube) p))

lemma cubeAt_preserving {T : Cube → Cube} (hT : Preserving T) (m : Cube)
    (p : Pos) : cubeAt (T m) p = cubeAt m (posMap T p) := by
  show T m p.1 p.2.1 p.2.2 = _
  rw [preserving_eval hT m p.1 p.2.1 p.2.2]
  rfl

lemma posMap_bijective (T : Cube → Cube)
    (h : ∀ q : Pos, ∃ p : Pos, posMap T p = q) :
    Function.Bijective (posMap T) :=
  Finite.surjective_iff_bijective.mp h

lemma countColor_preserving {T : Cube → Cube} (hT : Preserving T)
    (hb : Function.Bijective (posMap T)) (m : Cube) (v : ℕ) :
    countColor (T m) v = countColor m v := by
  unfold countColor
  apply Finset.card_bij (fun p _ => posMap T p)
  · intro p hp
    rw [Finset.mem_filter] at hp ⊢
    exact ⟨Finset.mem_univ _, by rw [← cubeAt_preserving hT m p]; exact hp.2⟩
  · intro a _ b _ hab
    exact hb.1 hab
  · intro q hq
    rw [Finset.mem_filter] at hq
    obtain ⟨p, hp⟩ := hb.2 q
    refine ⟨p, ?_, hp⟩
    rw [Finset.mem_filter]
    exact ⟨Finset.mem_univ _, by rw [cubeAt_preserving hT m p, hp]; exact hq.2⟩

set_option maxRecDepth 8000

lemma posMap_surj_F_cw : ∀ q : Pos, ∃ p : Pos, posMap _turn_F_cw p = q := by decide

lemma posMap_surj_F_ccw : ∀ q : Pos, ∃ p : Pos, posMap _turn_F_ccw p = q := by decide

lemma posMap_surj_R_cw : ∀ q : Pos, ∃ p : Pos, posMap _turn_R_cw p = q := by decide

lemma posMap_surj_R_ccw : ∀ q : Pos, ∃ p : Pos, posMap _turn_R_ccw p = q := by decide

lemma posMap_surj_U_cw : ∀ q : Pos, ∃ p : Pos, posMap _turn_U_cw p = q := by decide

lemma posMap_surj_U_ccw : ∀ q : Pos, ∃ p : Pos, posMap _turn_U_ccw p = q := by decide

lemma posMap_surj_L_cw : ∀ q : Pos, ∃ p : Pos, posMap _turn_L_cw p = q := by decide

lemma posMap_surj_L_ccw : ∀ q : Pos, ∃ p : Pos, posMap _turn_L_ccw p = q := by decide

lemma posMap_surj_D_cw : ∀ q : Pos, ∃ p : Pos, posMap _turn_D_cw p = q := by decide

lemma posMap_surj_D_ccw : ∀ q : Pos, ∃ p : Pos, posMap _turn_D_ccw p = q := by decide

lemma posMap_surj_B_cw : ∀ q : Pos, ∃ p : Pos, posMap _turn_B_cw p = q := by decide

lemma posMap_surj_B_ccw : ∀ q : Pos, ∃ p : Pos, posMap _turn_B_ccw p = q := by decide

lemma posMap_surj_M : ∀ q : Pos, ∃ p : Pos, posMap move_M p = q := by decide

lemma posMap_surj_M_prime : ∀ q : Pos, ∃ p : Pos, posMap move_M_prime p = q := by decide

lemma countColor_stateAfter {t : String} (ht : t ∈ supportedTokens) (c : Cube)
    (v : ℕ) : countColor (stateAfterManipulation t c) v = countColor c v := by
  fin_cases ht
  · exact countColor_preserving preserving_turn_F_cw (posMap_bijective _ posMap_surj_F_cw) c v
  · exact countColor_preserving preserving_turn_F_ccw (posMap_bijective _ posMap_surj_F_ccw) c v
  · exact countColor_preserving preserving_turn_R_cw (posMap_bijective _ posMap_surj_R_cw) c v
  · exact countColor_preserving preserving_turn_R_ccw (posMap_bijective _ posMap_surj_R_ccw) c v
  · exact countColor_preserving preserving_turn_U_cw (posMap_bijective _ posMap_surj_U_cw) c v
  · exact countColor_preserving preserving_turn_U_ccw (posMap_bijective _ posMap_surj_U_ccw) c v
  · exact countColor_preserving preserving_turn_L_cw (posMap_bijective _ posMap_surj_L_cw) c v
  · exact countColor_preserving preserving_turn_L_ccw (posMap_bijective _ posMap_surj_L_ccw) c v
  · exact countColor_preserving preserving_turn_D_cw (posMap_bijective _ posMap_surj_D_cw) c v
  · exact countColor_preserving preserving_turn_D_ccw (posMap_bijective _ posMap_surj_D_ccw) c v
  · exact countColor_preserving preserving_turn_B_cw (posMap_bijective _ posMap_surj_B_cw) c v
  · exact countColor_preserving preserving_turn_B_ccw (posMap_bijective _ posMap_surj_B_ccw) c v
  · exact countColor_preserving preserving_move_M (posMap_bijective _ posMap_surj_M) c v
  · exact countColor_preserving preserving_move_M_prime (posMap_bijective _ posMap_surj_M_prime) c v

lemma countColor_applyMoves (l : List String)
    (hl : ∀ t ∈ l, t ∈ supportedTokens) (c : Cube) (v : ℕ) :
    countColor (applyMoves l c) v = countColor c v := by
  induction l generalizing c with
  | nil => rfl
  | cons t l ih =>
    have h1 : t ∈ supportedTokens := hl t (List.mem_cons_self t l)
    have h2 : ∀ s ∈ l, s ∈ supportedTokens := fun s hs => hl s (List.mem_cons_of_mem t hs)
    show countColor (applyMoves l (stateAfterManipulation t c)) v = countColor c v
    rw [ih h2 (stateAfterManipulation t c), countColor_stateAfter h1 c v]

lemma center_stateAfter {t : String} (ht : t ∈ elementaryTokens) (c : Cube)
    (f : Fin 6) : stateAfterManipulation t c f 1 1 = c f 1 1 := by
  fin_cases ht
  · exact preserving_fixed preserving_turn_F_cw
      ((by decide : ∀ g : Fin 6, _turn_F_cw labelCube g 1 1 = labelCube g 1 1) f) c
  · exact preserving_fixed preserving_turn_F_ccw
      ((by decide : ∀ g : Fin 6, _turn_F_ccw labelCube g 1 1 = labelCube g 1 1) f) c
  · exact preserving_fixed preserving_turn_R_cw
      ((by decide : ∀ g : Fin 6, _turn_R_cw labelCube g 1 1 = labelCube g 1 1) f) c
  · exact preserving_fixed preserving_turn_R_ccw
      ((by decide : ∀ g : Fin 6, _turn_R_ccw labelCube g 1 1 = labelCube g 1 1) f) c
  · exact preserving_fixed preserving_turn_U_cw
      ((by decide : ∀ g : Fin 6, _turn_U_cw labelCube g 1 1 = labelCube g 1 1) f) c
  · exact preserving_fixed preserving_turn_U_ccw
      ((by decide : ∀ g : Fin 6, _turn_U_ccw labelCube g 1 1 = labelCube g 1 1) f) c
  · exact preserving_fixed preserving_turn_L_cw
      ((by decide : ∀ g : Fin 6, _turn_L_cw labelCube g 1 1 = labelCube g 1 1) f) c
  · exact preserving_fixed preserving_turn_L_ccw
      ((by decide : ∀ g : Fin 6, _turn_L_ccw labelCube g 1 1 = labelCube g 1 1) f) c
  · exact preserving_fixed preserving_turn_D_cw
      ((by decide : ∀ g : Fin 6, _turn_D_cw labelCube g 1 1 = labelCube g 1 1) f) c
  · exact preserving_fixed preserving_turn_D_ccw
      ((by decide : ∀ g : Fin 6, _turn_D_ccw labelCube g 1 1 = labelCube g 1 1) f) c
  · exact preserving_fixed preserving_turn_B_cw
      ((by decide : ∀ g : Fin 6, _turn_B_cw labelCube g 1 1 = labelCube g 1 1) f) c
  · exact preserving_fixed preserving_turn_B_ccw
      ((by decide : ∀ g : Fin 6, _turn_B_ccw labelCube g 1 1 = labelCube g 1 1) f) c

lemma center_applyMoves (l : List String)
    (hl : ∀ t ∈ l, t ∈ elementaryTokens) (c : Cube) (f : Fin 6) :
    applyMoves l c f 1 1 = c f 1 1 := by
  induction l generalizing c with
  | nil => rfl
  | cons t l ih =>
    have h1 : t ∈ elementaryTokens := hl t (List.mem_cons_self t l)
    have h2 : ∀ s ∈ l, s ∈ elementaryTokens := fun s hs => hl s (List.mem_cons_of_mem t hs)
    show applyMoves l (stateAfterManipulation t c) f 1 1 = c f 1 1
    rw [ih h2 (stateAfterManipulation t c), center_stateAfter h1 c f]

/-! ### Frame regions of the elementary turns

For each elementary turn, the positions its strip table touches: the nine
stickers of the turning face and one 3-sticker border strip on each of the
four adjacent faces (21 positions; both turn directions use the same strips). -/

/-- Writable region of F/F-prime: face 2, U row 2, L column 2, D row 0,
R column 0. -/
def turnRegionF : Finset Pos := Finset.univ.filter (fun p =>
  p.1 = 2 ∨ (p.1 = 0 ∧ p.2.1 = 2) ∨ (p.1 = 4 ∧ p.2.2 = 2) ∨
    (p.1 = 3 ∧ p.2.1 = 0) ∨ (p.1 = 1 ∧ p.2.2 = 0))

/-- Writable region of R/R-prime: face 1, U column 2, F column 2, D column 2,
B column 0. -/
def turnRegionR : Finset Pos := Finset.univ.filter (fun p =>
  p.1 = 1 ∨ (p.1 = 0 ∧ p.2.2 = 2) ∨ (p.1 = 2 ∧ p.2.2 = 2) ∨
    (p.1 = 3 ∧ p.2.2 = 2) ∨ (p.1 = 5 ∧ p.2.2 = 0))

/-- Writable region of U/U-prime: face 0 and row 0 of L, F, R, B. -/
def turnRegionU : Finset Pos := Finset.univ.filter (fun p =>
  p.1 = 0 ∨ (p.1 = 4 ∧ p.2.1 = 0) ∨ (p.1 = 2 ∧ p.2.1 = 0) ∨
    (p.1 = 1 ∧ p.2.1 = 0) ∨ (p.1 = 5 ∧ p.2.1 = 0))

/-- Writable region of L/L-prime: face 4, U column 0, B column 2, D column 0,
F column 0. -/
def turnRegionL : Finset Pos := Finset.univ.filter (fun p =>
  p.1 = 4 ∨ (p.1 = 0 ∧ p.2.2 = 0) ∨ (p.1 = 5 ∧ p.2.2 = 2) ∨
    (p.1 = 3 ∧ p.2.2 = 0) ∨ (p.1 = 2 ∧ p.2.2 = 0))

/-- Writable region of D/D-prime: face 3 and row 2 of L, B, R, F. -/
def turnRegionD : Finset Pos := Finset.univ.filter (fun p =>
  p.1 = 3 ∨ (p.1 = 4 ∧ p.2.1 = 2) ∨ (p.1 = 5 ∧ p.2.1 = 2) ∨
    (p.1 = 1 ∧ p.2.1 = 2) ∨ (p.1 = 2 ∧ p.2.1 = 2))

/-- Writable region of B/B-prime: face 5, U row 0, R column 2, D row 2,
L column 0. -/
def turnRegionB : Finset Pos := Finset.univ.filter (fun p =>
  p.1 = 5 ∨ (p.1 = 0 ∧ p.2.1 = 0) ∨ (p.1 = 1 ∧ p.2.2 = 2) ∨
    (p.1 = 3 ∧ p.2.1 = 2) ∨ (p.1 = 4 ∧ p.2.2 = 0))

/-- The region an elementary token may write. -/
def turnRegion (t : String) : Finset Pos :=
  if t = "F" ∨ t = primed "F" then turnRegionF
  else if t = "R" ∨ t = primed "R" then turnRegionR
  else if t = "U" ∨ t = primed "U" then turnRegionU
  else if t = "L" ∨ t = primed "L" then turnRegionL
  else if t = "D" ∨ t = primed "D" then turnRegionD
  else turnRegionB

lemma region_fix_F_cw : ∀ p : Pos, p ∉ turnRegionF →
    _turn_F_cw labelCube p.1 p.2.1 p.2.2 = labelCube p.1 p.2.1 p.2.2 := by decide

lemma region_fix_F_ccw : ∀ p : Pos, p ∉ turnRegionF →
    _turn_F_ccw labelCube p.1 p.2.1 p.2.2 = labelCube p.1 p.2.1 p.2.2 := by decide

lemma region_fix_R_cw : ∀ p : Pos, p ∉ turnRegionR →
    _turn_R_cw labelCube p.1 p.2.1 p.2.2 = labelCube p.1 p.2.1 p.2.2 := by decide

lemma region_fix_R_ccw : ∀ p : Pos, p ∉ turnRegionR →
    _turn_R_ccw labelCube p.1 p.2.1 p.2.2 = labelCube p.1 p.2.1 p.2.2 := by decide

lemma region_fix_U_cw : ∀ p : Pos, p ∉ turnRegionU →
    _turn_U_cw labelCube p.1 p.2.1 p.2.2 = labelCube p.1 p.2.1 p.2.2 := by decide

lemma region_fix_U_ccw : ∀ p : Pos, p ∉ turnRegionU →
    _turn_U_ccw labelCube p.1 p.2.1 p.2.2 = labelCube p.1 p.2.1 p.2.2 := by decide

lemma region_fix_L_cw : ∀ p : Pos, p ∉ turnRegionL →
    _turn_L_cw labelCube p.1 p.2.1 p.2.2 = labelCube p.1 p.2.1 p.2.2 := by decide

lemma region_fix_L_ccw : ∀ p : Pos, p ∉ turnRegionL →
    _turn_L_ccw labelCube p.1 p.2.1 p.2.2 = labelCube p.1 p.2.1 p.2.2 := by decide

lemma region_fix_D_cw : ∀ p : Pos, p ∉ turnRegionD →
    _turn_D_cw labelCube p.1 p.2.1 p.2.2 = labelCube p.1 p.2.1 p.2.2 := by decide

lemma region_fix_D_ccw : ∀ p : Pos, p ∉ turnRegionD →
    _turn_D_ccw labelCube p.1 p.2.1 p.2.2 = labelCube p.1 p.2.1 p.2.2 := by decide

lemma region_fix_B_cw : ∀ p : Pos, p ∉ turnRegionB →
    _turn_B_cw labelCube p.1 p.2.1 p.2.2 = labelCube p.1 p.2.1 p.2.2 := by decide

lemma region_fix_B_ccw : ∀ p : Pos, p ∉ turnRegionB →
    _turn_B_ccw labelCube p.1 p.2.1 p.2.2 = labelCube p.1 p.2.1 p.2.2 := by decide

/-! ### The claims -/

/-- C1: the claimed inverse law (每 token followed by its prime counterpart
restores any state) fails on the code: `_turn_R_ccw` restores U's right
column from B's left column without the `np.flip` that `_turn_R_cw` applied,
so dispatching "R" then "R'" on the labelled cube flips U's right column;
position (0,0,2) ends with label 8 (the sticker from (0,2,2)) instead of
its prior label 2. -/
theorem c1_inverse_law_fails_on_R :
    stateAfterManipulation (primed "R") (stateAfterManipulation "R" labelCube) ≠
      labelCube ∧
    stateAfterManipulation (primed "R") (stateAfterManipulation "R" labelCube) 0 0 2 = 8 ∧
    labelCube 0 0 2 = 2 := by decide

/-- C2: the claimed order-4 law fails on the code for the token "R'": four
consecutive dispatches of "R'" do not restore the labelled cube (the same
missing `np.flip` in `_turn_R_ccw`; "R" itself does satisfy the law). -/
theorem c2_order_four_fails_on_R_prime :
    stateAfterManipulation (primed "R") (stateAfterManipulation (primed "R")
        (stateAfterManipulation (primed "R")
          (stateAfterManipulation (primed "R") labelCube))) ≠ labelCube := by decide

/-- C3 (counterexample): dispatching "M" on the fresh grid moves centers:
the composite move ends with the `_orient_x_pos` whole-grid relabeling, which
overwrites face 0 with face 2, so the Up center becomes color 2 (F), not 0. -/
theorem c3_centers_move_under_M :
    stateAfterManipulation "M" _get_pristine_state 0 1 1 = 2 ∧
    _get_pristine_state 0 1 1 = 0 := by decide

/-- C3 (amended): for every sequence drawn from the twelve elementary
face-turn tokens applied to a freshly constructed Face Grid, the center
position (row 1, column 1) of each face retains its original role color. -/
theorem c3_centers_fixed_under_elementary_moves (l : List String)
    (hl : ∀ t ∈ l, t ∈ elementaryTokens) (f : Fin 6) :
    applyMoves l _get_pristine_state f 1 1 = f.val := by
  rw [center_applyMoves l hl _get_pristine_state f]
  rfl

/-- C3 (witness): the amended theorem at the concrete sequence [R, F']. -/
theorem c3_centers_witness :
    (∀ t ∈ ["R", primed "F"], t ∈ elementaryTokens) ∧
    applyMoves ["R", primed "F"] _get_pristine_state 0 1 1 = 0 :=
  ⟨by decide, c3_centers_fixed_under_elementary_moves ["R", primed "F"] (by decide) 0⟩

/-- C4: sticker conservation: after any sequence of supported moves applied
to the fresh grid, each of the six colors occupies exactly 9 positions. -/
theorem c4_sticker_conservation (l : List String)
    (hl : ∀ t ∈ l, t ∈ supportedTokens) (v : ℕ) (hv : v < 6) :
    countColor (applyMoves l _get_pristine_state) v = 9 := by
  rw [countColor_applyMoves l hl _get_pristine_state v]
  interval_cases v <;> decide

/-- C4 (witness): conservation at the concrete sequence [M, R']. -/
theorem c4_conservation_witness :
    (∀ t ∈ ["M", primed "R"], t ∈ supportedTokens) ∧ (2 : ℕ) < 6 ∧
    countColor (applyMoves ["M", primed "R"] _get_pristine_state) 2 = 9 :=
  ⟨by decide, by decide,
    c4_sticker_conservation ["M", primed "R"] (by decide) 2 (by decide)⟩

/-- C5: tokens outside the fourteen-token vocabulary are rejected with an
error carrying the offending token and the grid is left unchanged; tokens in
the vocabulary are dispatched to their transformation, applied once. -/
theorem c5_dispatcher_vocabulary (mv : String) (c : Cube) :
    (mv ∉ supportedTokens →
      execute_manipulation mv c = Except.error ("Unknown move notation: " ++ mv) ∧
      stateAfterManipulation mv c = c) ∧
    (mv ∈ supportedTokens → ∃ T, _move_dispatcher mv = some T ∧
      execute_manipulation mv c = Except.ok (T c) ∧
      stateAfterManipulation mv c = T c) := by
  constructor
  · intro hmv
    have hne : ∀ x ∈ supportedTokens, mv ≠ x := fun x hx h => hmv (h ▸ hx)
    have hnone : _move_dispatcher mv = none := by
      unfold _move_dispatcher
      rw [if_neg (hne "F" (by decide)), if_neg (hne (primed "F") (by decide)),
        if_neg (hne "R" (by decide)), if_neg (hne (primed "R") (by decide)),
        if_neg (hne "U" (by decide)), if_neg (hne (primed "U") (by decide)),
        if_neg (hne "L" (by decide)), if_neg (hne (primed "L") (by decide)),
        if_neg (hne "D" (by decide)), if_neg (hne (primed "D") (by decide)),
        if_neg (hne "B" (by decide)), if_neg (hne (primed "B") (by decide)),
        if_neg (hne "M" (by decide)), if_neg (hne (primed "M") (by decide))]
    exact ⟨by unfold execute_manipulation; rw [hnone],
      by unfold stateAfterManipulation; rw [hnone]⟩
  · intro hmv
    have h : mv = "F" ∨ mv = primed "F" ∨ mv = "R" ∨ mv = primed "R" ∨
        mv = "U" ∨ mv = primed "U" ∨ mv = "L" ∨ mv = primed "L" ∨
        mv = "D" ∨ mv = primed "D" ∨ mv = "B" ∨ mv = primed "B" ∨
        mv = "M" ∨ mv = primed "M" := by
      simpa [supportedTokens] using hmv
    rcases h with rfl | rfl | rfl | rfl | rfl | rfl | rfl | rfl | rfl | rfl |
      rfl | rfl | rfl | rfl <;> exact ⟨_, rfl, rfl, rfl⟩

/-- C5 (witness): the unknown token "X" on the fresh grid. -/
theorem c5_dispatcher_witness :
    execute_manipulation "X" _get_pristine_state =
      Except.error ("Unknown move notation: " ++ "X") ∧
    stateAfterManipulation "X" _get_pristine_state = _get_pristine_state :=
  (c5_dispatcher_vocabulary "X" _get_pristine_state).1 (by decide)

/-- C6: serializing the fresh grid, or any grid that was just reset, yields
the 54-character solved string, each role letter repeated 9 times in
Up, Right, Front, Down, Left, Back order (row-major within each face, as
`flattenCube` iterates). -/
theorem c6_solved_serialization :
    to_kociemba_string _get_pristine_state = some SOLVED_KOCIEMBA_STRING ∧
    SOLVED_KOCIEMBA_STRING =
      "UUUUUUUUURRRRRRRRRFFFFFFFFFDDDDDDDDDLLLLLLLLLBBBBBBBBB" ∧
    ∀ c : Cube, to_kociemba_string (reset_to_solved c) = some SOLVED_KOCIEMBA_STRING :=
  ⟨rfl, rfl, fun _ => rfl⟩

/-- C7: tokenizing "R2 U F' D2" yields [[R,R], U, F', [D,D]]; tokens without
a "2" pass through unchanged and tokens with a "2" expand to the pair of
their leading character. -/
theorem c7_tokenizer_example_and_shape :
    _tokenize_solution_string ("R2 U " ++ primed "F" ++ " D2") =
      [MoveEntry.double "R" "R", MoveEntry.single "U",
        MoveEntry.single (primed "F"), MoveEntry.double "D" "D"] ∧
    (∀ mv : String, mv.data.contains '2' = false →
      entryOfToken mv = MoveEntry.single mv) ∧
    (∀ mv : String, mv.data.contains '2' = true →
      entryOfToken mv =
        MoveEntry.double (String.mk (mv.data.take 1)) (String.mk (mv.data.take 1))) := by
  refine ⟨by decide, fun mv h => ?_, fun mv h => ?_⟩
  · unfold entryOfToken
    rw [h, if_neg (by decide : ¬(false = true))]
  · unfold entryOfToken
    rw [h, if_pos (by decide : (true = true))]

/-- C7 (witness): the prime-only token "F'" passes through as a single. -/
theorem c7_tokenizer_witness :
    ((primed "F").data.contains '2' = false) ∧
    entryOfToken (primed "F") = MoveEntry.single (primed "F") :=
  ⟨by decide, c7_tokenizer_example_and_shape.2.1 (primed "F") (by decide)⟩

/-- C8: when the grid serializes to the solved sentinel, requesting a
solution returns the empty solution string and empty move list, and the
answer does not depend on the solving oracle (it is never consulted). -/
theorem c8_solved_skips_oracle (solver : String → Except String String)
    (c : Cube) (h : to_kociemba_string c = some SOLVED_KOCIEMBA_STRING) :
    discover_solution_path solver c = some (Except.ok ("", [])) ∧
    ∀ solver2 : String → Except String String,
      discover_solution_path solver c = discover_solution_path solver2 c := by
  constructor
  · unfold discover_solution_path
    rw [h]
    simp
  · intro solver2
    unfold discover_solution_path
    rw [h]
    simp

/-- C8 (witness): the fresh grid with an identity oracle. -/
theorem c8_oracle_witness :
    to_kociemba_string _get_pristine_state = some SOLVED_KOCIEMBA_STRING ∧
    discover_solution_path (fun s => Except.ok s) _get_pristine_state =
      some (Except.ok ("", [])) :=
  ⟨rfl, (c8_solved_skips_oracle (fun s => Except.ok s) _get_pristine_state rfl).1⟩

/-- C9: each elementary face turn writes only the turning face and one
3-sticker strip on each of the four adjacent faces (21 positions): every
position outside that region, 33 of the 54 (the whole opposite face among
them), keeps its prior value on every input state. -/
theorem c9_frame_condition : ∀ t ∈ elementaryTokens,
    (∀ (m : Cube) (p : Pos), p ∉ turnRegion t →
      cubeAt (stateAfterManipulation t m) p = cubeAt m p) ∧
    (turnRegion t).card = 21 ∧ (Finset.univ \ turnRegion t).card = 33 := by
  intro t ht
  fin_cases ht
  · exact ⟨fun m p hp => preserving_fixed preserving_turn_F_cw (region_fix_F_cw p hp) m,
      by decide, by decide⟩
  · exact ⟨fun m p hp => preserving_fixed preserving_turn_F_ccw (region_fix_F_ccw p hp) m,
      by decide, by decide⟩
  · exact ⟨fun m p hp => preserving_fixed preserving_turn_R_cw (region_fix_R_cw p hp) m,
      by decide, by decide⟩
  · exact ⟨fun m p hp => preserving_fixed preserving_turn_R_ccw (region_fix_R_ccw p hp) m,
      by decide, by decide⟩
  · exact ⟨fun m p hp => preserving_fixed preserving_turn_U_cw (region_fix_U_cw p hp) m,
      by decide, by decide⟩
  · exact ⟨fun m p hp => preserving_fixed preserving_turn_U_ccw (region_fix_U_ccw p hp) m,
      by decide, by decide⟩
  · exact ⟨fun m p hp => preserving_fixed preserving_turn_L_cw (region_fix_L_cw p hp) m,
      by decide, by decide⟩
  · exact ⟨fun m p hp => preserving_fixed preserving_turn_L_ccw (region_fix_L_ccw p hp) m,
      by decide, by decide⟩
  · exact ⟨fun m p hp => preserving_fixed preserving_turn_D_cw (region_fix_D_cw p hp) m,
      by decide, by decide⟩
  · exact ⟨fun m p hp => preserving_fixed preserving_turn_D_ccw (region_fix_D_ccw p hp) m,
      by decide, by decide⟩
  · exact ⟨fun m p hp => preserving_fixed preserving_turn_B_cw (region_fix_B_cw p hp) m,
      by decide, by decide⟩
  · exact ⟨fun m p hp => preserving_fixed preserving_turn_B_ccw (region_fix_B_ccw p hp) m,
      by decide, by decide⟩

/-- C9 (witness): turning Up leaves the Down center (outside the region)
unchanged on the labelled cube, and the region has 21 positions. -/
theorem c9_frame_witness :
    ("U" ∈ elementaryTokens) ∧ (((3, 1, 1) : Pos) ∉ turnRegion "U") ∧
    cubeAt (stateAfterManipulation "U" labelCube) ((3, 1, 1) : Pos) =
      cubeAt labelCube ((3, 1, 1) : Pos) ∧
    (turnRegion "U").card = 21 := by
  have h := c9_frame_condition "U" (by decide)
  exact ⟨by decide, by decide, h.1 labelCube (3, 1, 1) (by decide), h.2.1⟩

/-- C10: any whitespace-separated token containing "2" anywhere expands to
the pair of its first character: "F'2" loses the prime and yields [F, F],
and "2U" yields ["2", "2"]. -/
theorem c10_tokenizer_first_char :
    (∀ mv : String, mv.data.contains '2' = true →
      entryOfToken mv =
        MoveEntry.double (String.mk (mv.data.take 1)) (String.mk (mv.data.take 1))) ∧
    _tokenize_solution_string (primed "F" ++ "2") = [MoveEntry.double "F" "F"] ∧
    _tokenize_solution_string "2U" = [MoveEntry.double "2" "2"] := by
  refine ⟨fun mv h => ?_, by decide, by decide⟩
  unfold entryOfToken
  rw [h, if_pos (by decide : (true = true))]

/-- C10 (witness): the token "2U" expands to the pair of its first character. -/
theorem c10_tokenizer_witness :
    ("2U".data.contains '2' = true) ∧
    entryOfToken "2U" =
      MoveEntry.double (String.mk ("2U".data.take 1)) (String.mk ("2U".data.take 1)) :=
  ⟨by decide, c10_tokenizer_first_char.1 "2U" (by decide)⟩
